import Mathlib

/-
  Verification of the API-key service core (fastapi_api_key).

  Shallow embedding of the credential codec, the entity lifecycle checks,
  the verification pipeline (plain and cached), the cache invalidation
  logic, the bcrypt hasher truncation and the SHA-256 cache-key function.

  Conventions of the embedding:
  * Python `datetime` values are modelled as a wall-clock integer plus an
    awareness flag (`PyDT`).  The source only ever attaches `timezone.utc`,
    so aware values need no explicit offset.  Comparing an aware value with
    a naive one raises `TypeError` in CPython; the embedding mirrors this
    with the `Err.typeError` outcome of `pyLtDT`.
  * Exceptions are modelled with `Except Err`.
  * The repository is the in-process map reference implementation: a list
    of entities keyed by `id_`.
  * Calls to collaborators (repository, hasher, cache) are recorded as an
    event trace (`Ev`) so that "no repository access happened before the
    error" style statements can be made precise.
  * The hasher's `verify` is a parameter `hverify : String → String → Bool`
    (the hash algorithms themselves are external collaborators).
  * The source names `global_prefix` / `cache_prefix` are rendered as
    `globalPre` / `cachePre` here.
-/

set_option autoImplicit false

namespace ApiKeySpec

/-- Model of a Python `datetime`: wall-clock value and tz-awareness flag. -/
structure PyDT where
  wall : Int
  aware : Bool
deriving DecidableEq

/-- Domain / runtime error outcomes raised by the pipeline. -/
inductive Err where
  | keyNotProvided
  | invalidKey
  | keyNotFound
  | keyInactive
  | keyExpired
  | invalidScopes
  /-- CPython `TypeError` from comparing an aware and a naive datetime. -/
  | typeError
  /-- Python `assert` failure. -/
  | assertionFailed
  /-- CPython `AttributeError` (method called on a non-entity value). -/
  | attrError
deriving DecidableEq

/-- Python `a < b` on datetimes: raises `TypeError` when exactly one side
is timezone-aware, otherwise compares the instants (both our aware values
are UTC, so wall clocks compare directly). -/
def pyLtDT (a b : PyDT) : Except Err Bool :=
  if a.aware = b.aware then .ok (decide (a.wall < b.wall)) else .error .typeError

/-- Embeds `utils.datetime_factory`: `datetime.now()`, a naive value.
The ambient clock is the `nowWall` argument. -/
def datetime_factory (nowWall : Int) : PyDT := ⟨nowWall, false⟩

/-- Embeds `entities._normalize_datetime`: `None` passes through, a naive
value gets `tzinfo=timezone.utc` attached (wall clock preserved), an aware
value is returned unchanged. -/
def normalize_datetime : Option PyDT → Option PyDT
  | none => none
  | some v => if v.aware then some v else some ⟨v.wall, true⟩

/-- Embeds the `ApiKey` dataclass of `domain/entities.py`.
The `scopes` field and `ensure_valid_scopes` below are
Modelled from the spec: the snapshot's `entities.py` lacks the `scopes`
attribute that `services/base.py` and `services/cached.py` use; the spec
(§3, §4.3) defines it as a list of permission strings. -/
structure ApiKey where
  id_ : String
  name : Option String := none
  description : Option String := none
  is_active : Bool := true
  expires_at : Option PyDT := none
  created_at : PyDT
  last_used_at : Option PyDT := none
  key_id : String
  key_hash : Option String := none
  scopes : List String := []
deriving DecidableEq

/-- Embeds dataclass construction followed by `ApiKey.__post_init__`:
all three datetime fields are normalized; if `created_at` normalized to
`None` (impossible for a type-correct argument) it would be replaced by a
fresh `datetime_factory()` reading the ambient clock `nowWall`. -/
def mkApiKey (nowWall : Int) (id_ : String) (name description : Option String)
    (is_active : Bool) (expires_at : Option PyDT) (created_at : PyDT)
    (last_used_at : Option PyDT) (key_id : String) (key_hash : Option String)
    (scopes : List String) : ApiKey :=
  { id_ := id_
    name := name
    description := description
    is_active := is_active
    expires_at := normalize_datetime expires_at
    created_at :=
      match normalize_datetime (some created_at) with
      | some v => v
      | none => datetime_factory nowWall
    last_used_at := normalize_datetime last_used_at
    key_id := key_id
    key_hash := key_hash
    scopes := scopes }

/-- Embeds `ApiKey.touch`: set `last_used_at` to `datetime_factory()`. -/
def touch (e : ApiKey) (nowWall : Int) : ApiKey :=
  { e with last_used_at := some (datetime_factory nowWall) }

/-- Embeds `ApiKey.ensure_can_authenticate`: raise `KeyInactive` when the
key is disabled, then raise `KeyExpired` when `expires_at` is set and is
before `datetime_factory()` (the datetime comparison itself can raise). -/
def ensure_can_authenticate (e : ApiKey) (nowWall : Int) : Except Err Unit :=
  if e.is_active = false then .error .keyInactive
  else
    match e.expires_at with
    | none => .ok ()
    | some d =>
      match pyLtDT d (datetime_factory nowWall) with
      | .error err => .error err
      | .ok b => if b then .error .keyExpired else .ok ()

/-- Modelled from the spec: `ensure_valid_scopes` is referenced by
`services/base.py` but absent from the snapshot's `entities.py`; spec §4.3
says it signals `InvalidScopes` when a required scope is missing from the
entity's scope set and is a no-op when `required` is empty. -/
def ensure_valid_scopes (e : ApiKey) (required : List String) : Except Err Unit :=
  if required.all (fun s => e.scopes.contains s) then .ok () else .error .invalidScopes

/-- Embeds `ApiKey.full_key_secret`: the f-string
`{global_prefix}{separator}{key_id}{separator}{key_secret}`.
Per spec §6 the separator is a single character. -/
def full_key_secret (globalPre : String) (sep : Char) (key_id key_secret : String) :
    String :=
  globalPre ++ String.mk [sep] ++ key_id ++ String.mk [sep] ++ key_secret

/-! ### Credential codec -/

/-- Python `str.split(sep)` on character lists: split at every separator
occurrence, keeping empty segments (`"a--b".split("-") = ["a","","b"]`,
`"".split("-") = [""]`). -/
def pySplit (sep : Char) : List Char → List (List Char)
  | [] => [[]]
  | c :: cs =>
    let r := pySplit sep cs
    if c = sep then [] :: r
    else
      match r with
      | [] => [[c]]
      | h :: t => (c :: h) :: t

/-- `str.split` on strings. -/
def pySplitS (sep : Char) (s : String) : List String :=
  (pySplit sep s.data).map String.mk

/-- Python whitespace as stripped by `str.strip()` (ASCII part; the
credentials at issue are ASCII). -/
def pyIsSpace (c : Char) : Bool :=
  c = ' ' ∨ c = '\t' ∨ c = '\n' ∨ c = '\r' ∨ c = '\x0b' ∨ c = '\x0c'

/-- `s.strip() == ""`: the blank-string test used by the presence checks
(a string strips to empty exactly when every character is whitespace). -/
def isBlank (s : String) : Bool := s.data.all pyIsSpace

/-- Embeds `ApiKeyService._get_parts`: split the key on the separator and
require exactly three segments, else `InvalidKey`. -/
def _get_parts (sep : Char) (api_key : String) : Except Err (String × String × String) :=
  match pySplitS sep api_key with
  | [a, b, c] => .ok (a, b, c)
  | _ => .error .invalidKey

/-- Service configuration: separator and global prefix
(source fields `separator`, `global_prefix`). -/
structure Cfg where
  sep : Char := '-'
  globalPre : String := "ak"

/-- Embeds `ApiKeyService._parse_and_validate_key`: `None` or blank input
is `KeyNotProvided`; then the parts are extracted and the global prefix is
checked. -/
def _parse_and_validate_key (cfg : Cfg) (api_key : Option String) :
    Except Err (String × String × String) :=
  match api_key with
  | none => .error .keyNotProvided
  | some s =>
    if isBlank s then .error .keyNotProvided
    else
      match _get_parts cfg.sep s with
      | .error err => .error err
      | .ok (gp, kid, sec) =>
        if gp = cfg.globalPre then .ok (gp, kid, sec) else .error .invalidKey

/-! ### Repository (in-process map reference implementation) and events -/

/-- Events recording every call to a collaborator. -/
inductive Ev where
  | repoGetById (i : String)
  | repoGetByKeyId (kid : String)
  | repoUpdate (i : String)
  | repoDeleteById (i : String)
  | hasherVerify (kh sec : String)
  | cacheGet (k : String)
  | cacheSet (k : String)
  | cacheDelete (k : String)
deriving DecidableEq

/-- The repository state: stored entities (unique `id_`). -/
abbrev Repo := List ApiKey

/-- Repository `get_by_id`. -/
def repoGetById (repo : Repo) (i : String) : Option ApiKey :=
  repo.find? (fun e => e.id_ = i)

/-- Repository `get_by_key_id`. -/
def repoGetByKeyId (repo : Repo) (kid : String) : Option ApiKey :=
  repo.find? (fun e => e.key_id = kid)

/-- Repository `update`: replace the entity with matching `id_` and return
it, or return `none` leaving the store unchanged. -/
def repoUpdate (repo : Repo) (e : ApiKey) : Option ApiKey × Repo :=
  if repo.any (fun x => x.id_ = e.id_) then
    (some e, repo.map (fun x => if x.id_ = e.id_ then e else x))
  else (none, repo)

/-- Repository `delete_by_id`: remove and report whether found. -/
def repoDeleteById (repo : Repo) (i : String) : Bool × Repo :=
  if repo.any (fun x => x.id_ = i) then
    (true, repo.filter (fun x => ¬ x.id_ = i))
  else (false, repo)

/-! ### Plain verification pipeline (`ApiKeyService`) -/

/-- Embeds `ApiKeyService.get_by_key_id`: blank key_id is `KeyNotProvided`
(checked before the repository call); otherwise the repository is queried
and a missing entity is `KeyNotFound`. -/
def get_by_key_id (repo : Repo) (kid : String) : Except Err ApiKey × List Ev :=
  if isBlank kid then (.error .keyNotProvided, [])
  else
    match repoGetByKeyId repo kid with
    | none => (.error .keyNotFound, [.repoGetByKeyId kid])
    | some e => (.ok e, [.repoGetByKeyId kid])

/-- Embeds `ApiKeyService._verify_entity`: assert `key_hash` is set, run
the liveness check, reject an empty candidate secret, run the hasher's
verify, check scopes, then `touch` (which mutates `last_used_at` and calls
`repo.update`, ignoring its result) and return the updated entity. -/
def _verify_entity (hverify : String → String → Bool) (repo : Repo) (e : ApiKey)
    (key_secret : String) (required : List String) (nowWall : Int) :
    Except Err ApiKey × Repo × List Ev :=
  match e.key_hash with
  | none => (.error .assertionFailed, repo, [])
  | some kh =>
    match ensure_can_authenticate e nowWall with
    | .error err => (.error err, repo, [])
    | .ok _ =>
      if key_secret = "" then (.error .invalidKey, repo, [])
      else if hverify kh key_secret = false then
        (.error .invalidKey, repo, [.hasherVerify kh key_secret])
      else
        match ensure_valid_scopes e required with
        | .error err => (.error err, repo, [.hasherVerify kh key_secret])
        | .ok _ =>
          let e' := touch e nowWall
          let r' := (repoUpdate repo e').2
          (.ok e', r', [.hasherVerify kh key_secret, .repoUpdate e'.id_])

/-- Embeds `ApiKeyService._verify_key`: parse and validate the credential,
look the entity up by `key_id`, then verify the entity. -/
def _verify_key_svc (cfg : Cfg) (hverify : String → String → Bool) (repo : Repo)
    (api_key : Option String) (required : List String) (nowWall : Int) :
    Except Err ApiKey × Repo × List Ev :=
  match _parse_and_validate_key cfg api_key with
  | .error err => (.error err, repo, [])
  | .ok (_, kid, sec) =>
    match get_by_key_id repo kid with
    | (.error err, evs) => (.error err, repo, evs)
    | (.ok e, evs) =>
      match _verify_entity hverify repo e sec required nowWall with
      | (res, r', evs2) => (res, r', evs ++ evs2)

/-- Python `random.uniform(a, b) = a + (b-a)*random()`. -/
def pyUniform (a b r : ℚ) : ℚ := a + (b - a) * r

/-- Embeds the public `AbstractApiKeyService.verify_key` wrapper: on any
exception from the inner pipeline, sleep `uniform(rrd, rrd*2)` and re-raise
the same exception; on success return immediately (no sleep).  `r` is the
value drawn by `SystemRandom.random()`, and the second component is the
total slept duration. -/
def verify_key_jitter (inner : Except Err ApiKey) (rrd r : ℚ) :
    Except Err ApiKey × ℚ :=
  match inner with
  | .ok e => (.ok e, 0)
  | .error err => (.error err, pyUniform rrd (rrd * 2) r)

/-! ### SHA-256 (executable, for `_compute_cache_key`) -/

/-- UTF-8 encoding of a single code point. -/
def utf8Char (c : Char) : List Nat :=
  let n := c.toNat
  if n < 128 then [n]
  else if n < 2048 then [192 + n / 64, 128 + n % 64]
  else if n < 65536 then [224 + n / 4096, 128 + (n / 64) % 64, 128 + n % 64]
  else [240 + n / 262144, 128 + (n / 4096) % 64, 128 + (n / 64) % 64, 128 + n % 64]

/-- Python `str.encode("utf-8")` as a byte list. -/
def utf8Bytes (s : String) : List Nat :=
  (s.data.map utf8Char).flatten

def m32 : Nat := 4294967296

/-- 32-bit right rotation (on `Nat`, reduced mod `2^32`). -/
def rotw (n x : Nat) : Nat := ((x >>> n) ||| (x <<< (32 - n))) % m32

/-- FIPS 180-4 `Σ₀`. -/
def sigB0 (x : Nat) : Nat := (rotw 2 x) ^^^ (rotw 13 x) ^^^ (rotw 22 x)

/-- FIPS 180-4 `Σ₁`. -/
def sigB1 (x : Nat) : Nat := (rotw 6 x) ^^^ (rotw 11 x) ^^^ (rotw 25 x)

/-- FIPS 180-4 `σ₀`. -/
def sigS0 (x : Nat) : Nat := (rotw 7 x) ^^^ (rotw 18 x) ^^^ (x >>> 3)

/-- FIPS 180-4 `σ₁`. -/
def sigS1 (x : Nat) : Nat := (rotw 17 x) ^^^ (rotw 19 x) ^^^ (x >>> 10)

/-- The 64 SHA-256 round constants, in decimal. -/
def sha256K : List Nat :=
  [1116352408, 1899447441, 3049323471, 3921009573, 961987163,
   1508970993, 2453635748, 2870763221, 3624381080, 310598401,
   607225278, 1426881987, 1925078388, 2162078206, 2614888103,
   3248222580, 3835390401, 4022224774, 264347078, 604807628,
   770255983, 1249150122, 1555081692, 1996064986, 2554220882,
   2821834349, 2952996808, 3210313671, 3336571891, 3584528711,
   113926993, 338241895, 666307205, 773529912, 1294757372,
   1396182291, 1695183700, 1986661051, 2177026350, 2456956037,
   2730485921, 2820302411, 3259730800, 3345764771, 3516065817,
   3600352804, 4094571909, 275423344, 430227734, 506948616,
   659060556, 883997877, 958139571, 1322822218, 1537002063,
   1747873779, 1955562222, 2024104815, 2227730452, 2361852424,
   2428436474, 2756734187, 3204031479, 3329325298]

/-- The eight SHA-256 initial hash words, in decimal. -/
def sha256H0 : List Nat :=
  [1779033703, 3144134277, 1013904242, 2773480762, 1359893119,
   2600822924, 528734635, 1541459225]

/-- SHA-256 padding: append `0x80`, zeros to 56 mod 64, then the 64-bit
big-endian bit length. -/
def shaPad (msg : List Nat) : List Nat :=
  let len := msg.length
  let zeros := (119 - len % 64) % 64
  let bl := 8 * len
  msg ++ [0x80] ++ List.replicate zeros 0 ++
    [(bl >>> 56) % 256, (bl >>> 48) % 256, (bl >>> 40) % 256, (bl >>> 32) % 256,
     (bl >>> 24) % 256, (bl >>> 16) % 256, (bl >>> 8) % 256, bl % 256]

/-- Split a list into chunks of `n` elements; `fuel` bounds the recursion
(structural, so that the kernel can evaluate it). -/
def chunksF (n : Nat) : Nat → List Nat → List (List Nat)
  | _, [] => []
  | 0, l => [l]
  | fuel + 1, l => l.take n :: chunksF n fuel (l.drop n)

def bytesToWord : List Nat → Nat
  | [a, b, c, d] => a * 16777216 + b * 65536 + c * 256 + d
  | _ => 0

/-- Message schedule: extend the 16 block words to 64. -/
def shaExtend (w0 : List Nat) : List Nat :=
  (List.range 48).foldl
    (fun w _ =>
      let n := w.length
      let x := (sigS1 (w.getD (n - 2) 0) + w.getD (n - 7) 0 +
                sigS0 (w.getD (n - 15) 0) + w.getD (n - 16) 0) % m32
      w ++ [x]) w0

/-- One SHA-256 compression round state. -/
def shaRound (st : Nat × Nat × Nat × Nat × Nat × Nat × Nat × Nat) (kw : Nat × Nat) :
    Nat × Nat × Nat × Nat × Nat × Nat × Nat × Nat :=
  match st with
  | (a, b, c, d, e, f, g, h) =>
    let ch := (e &&& f) ^^^ ((e ^^^ 4294967295) &&& g)
    let maj := (a &&& b) ^^^ (a &&& c) ^^^ (b &&& c)
    let t1 := (h + sigB1 e + ch + kw.1 + kw.2) % m32
    let t2 := (sigB0 a + maj) % m32
    ((t1 + t2) % m32, a, b, c, (d + t1) % m32, e, f, g)

/-- SHA-256 compression of one 64-byte block into the hash state. -/
def shaCompress (hs : List Nat) (block : List Nat) : List Nat :=
  let w := shaExtend ((chunksF 4 block.length block).map bytesToWord)
  let st0 := (hs.getD 0 0, hs.getD 1 0, hs.getD 2 0, hs.getD 3 0,
              hs.getD 4 0, hs.getD 5 0, hs.getD 6 0, hs.getD 7 0)
  match (sha256K.zip w).foldl shaRound st0 with
  | (a, b, c, d, e, f, g, h) =>
    [(hs.getD 0 0 + a) % m32, (hs.getD 1 0 + b) % m32, (hs.getD 2 0 + c) % m32,
     (hs.getD 3 0 + d) % m32, (hs.getD 4 0 + e) % m32, (hs.getD 5 0 + f) % m32,
     (hs.getD 6 0 + g) % m32, (hs.getD 7 0 + h) % m32]

/-- SHA-256 digest of a byte list, as 32 bytes. -/
def sha256Bytes (msg : List Nat) : List Nat :=
  let p := shaPad msg
  let hs := (chunksF 64 p.length p).foldl shaCompress sha256H0
  (hs.map (fun w => [(w >>> 24) % 256, (w >>> 16) % 256, (w >>> 8) % 256, w % 256])).flatten

/-- Lowercase hex digit. -/
def hexChar (n : Nat) : Char :=
  Char.ofNat (if n < 10 then 48 + n else 87 + n)

/-- Lowercase hex rendering of a byte list (`hexdigest`). -/
def bytesToHex (bs : List Nat) : String :=
  String.mk ((bs.map (fun b => [hexChar (b / 16), hexChar (b % 16)])).flatten)

/-- Embeds `cached._compute_cache_key`:
`hashlib.sha256(full_api_key.encode()).hexdigest()`. -/
def _compute_cache_key (full_api_key : String) : String :=
  bytesToHex (sha256Bytes (utf8Bytes full_api_key))

/-! ### Cache layer (`CachedApiKeyService`) -/

/-- A cached value: either an entity (primary entry) or a string
(secondary-index entry pointing at a primary cache key). -/
inductive CVal where
  | ent (e : ApiKey)
  | strv (s : String)
deriving DecidableEq

/-- The cache state (aiocache `SimpleMemoryCache` reference backend). -/
abbrev Cache := List (String × CVal)

def cacheGetFn (c : Cache) (k : String) : Option CVal :=
  (c.find? (fun p => p.1 = k)).map (fun p => p.2)

def cacheSetFn (c : Cache) (k : String) (v : CVal) : Cache :=
  (k, v) :: c.filter (fun p => ¬ p.1 = k)

def cacheDelFn (c : Cache) (k : String) : Cache :=
  c.filter (fun p => ¬ p.1 = k)

/-- Embeds `CachedApiKeyService._get_index_key`:
`f"{cache_prefix}:{INDEX_PREFIX}:{key_id}"` with `INDEX_PREFIX = "idx"`. -/
def _get_index_key (cachePre : String) (kid : String) : String :=
  cachePre ++ ":idx:" ++ kid

/-- Embeds `CachedApiKeyService._invalidate_cache`: read the secondary
index; if it holds a truthy value, delete the primary entry it points to
and then the index entry; otherwise do nothing.  (Index entries are always
strings; an entity stored there cannot arise in the source flow.) -/
def _invalidate_cache (cachePre : String) (cache : Cache) (kid : String) :
    Cache × List Ev :=
  let ik := _get_index_key cachePre kid
  match cacheGetFn cache ik with
  | some (.strv ck) =>
    if ck = "" then (cache, [.cacheGet ik])
    else (cacheDelFn (cacheDelFn cache ck) ik, [.cacheGet ik, .cacheDelete ck, .cacheDelete ik])
  | some (.ent _) => (cache, [.cacheGet ik])
  | none => (cache, [.cacheGet ik])

/-- Embeds `ApiKeyService.update`: repository update, `KeyNotFound` when
the repository reports the entity absent. -/
def service_update (repo : Repo) (e : ApiKey) : Except Err ApiKey × Repo × List Ev :=
  match repoUpdate repo e with
  | (none, r) => (.error .keyNotFound, r, [.repoUpdate e.id_])
  | (some res, r) => (.ok res, r, [.repoUpdate e.id_])

/-- Embeds `CachedApiKeyService.update`: delegate to the service update,
then (only if it succeeded) invalidate the cache under the entity's
`key_id`. -/
def cachedUpdate (cachePre : String) (repo : Repo) (cache : Cache) (e : ApiKey) :
    Except Err ApiKey × Repo × Cache × List Ev :=
  match service_update repo e with
  | (.error err, r, evs) => (.error err, r, cache, evs)
  | (.ok e2, r, evs) =>
    match _invalidate_cache cachePre cache e2.key_id with
    | (c', evs2) => (.ok e2, r, c', evs ++ evs2)

/-- Embeds `CachedApiKeyService.delete_by_id`: fetch the entity (to learn
its `key_id`), `KeyNotFound` if absent, delete at the repository, then
invalidate the cache. -/
def cachedDeleteById (cachePre : String) (repo : Repo) (cache : Cache) (i : String) :
    Except Err Bool × Repo × Cache × List Ev :=
  match repoGetById repo i with
  | none => (.error .keyNotFound, repo, cache, [.repoGetById i])
  | some ent =>
    let r' := (repoDeleteById repo i).2
    match _invalidate_cache cachePre cache ent.key_id with
    | (c', evs2) =>
      (.ok true, r', c', [.repoGetById i, .repoDeleteById i] ++ evs2)

def missingScopes (scopes required : List String) : List String :=
  required.filter (fun s => ¬ scopes.contains s)

/-- Cache-miss branch of `CachedApiKeyService._verify_key`: full pipeline
(lookup, liveness, assert, empty-secret, hash verify, inline scope check,
touch + update with `KeyNotFound` on absence), then populate the primary
cache entry and the secondary index. -/
def cached_verify_miss (cachePre : String) (hverify : String → String → Bool)
    (repo : Repo) (cache : Cache) (ck kid sec : String) (required : List String)
    (nowWall : Int) : Except Err ApiKey × Repo × Cache × List Ev :=
  match get_by_key_id repo kid with
  | (.error err, evs) => (.error err, repo, cache, Ev.cacheGet ck :: evs)
  | (.ok e, evs) =>
    match ensure_can_authenticate e nowWall with
    | .error err => (.error err, repo, cache, Ev.cacheGet ck :: evs)
    | .ok _ =>
      match e.key_hash with
      | none => (.error .assertionFailed, repo, cache, Ev.cacheGet ck :: evs)
      | some kh =>
        if sec = "" then (.error .invalidKey, repo, cache, Ev.cacheGet ck :: evs)
        else if hverify kh sec = false then
          (.error .invalidKey, repo, cache, Ev.cacheGet ck :: evs ++ [.hasherVerify kh sec])
        else
          if required ≠ [] ∧ missingScopes e.scopes required ≠ [] then
            (.error .invalidScopes, repo, cache, Ev.cacheGet ck :: evs ++ [.hasherVerify kh sec])
          else
            let e' := touch e nowWall
            match repoUpdate repo e' with
            | (none, r') =>
              (.error .keyNotFound, r', cache,
                Ev.cacheGet ck :: evs ++ [.hasherVerify kh sec, .repoUpdate e'.id_])
            | (some upd, r') =>
              let ik := _get_index_key cachePre kid
              let c2 := cacheSetFn (cacheSetFn cache ck (.ent upd)) ik (.strv ck)
              (.ok upd, r', c2,
                Ev.cacheGet ck :: evs ++
                  [.hasherVerify kh sec, .repoUpdate e'.id_, .cacheSet ck, .cacheSet ik])

/-- Embeds `CachedApiKeyService._verify_key`: presence checks, parts and
prefix checks, then look the full-credential hash up in the cache.  On a
truthy hit: liveness check, inline scope check, touch + update
(`KeyNotFound` when the repository reports the entity absent).  Otherwise
fall through to the full pipeline `cached_verify_miss`.  A truthy non-
entity hit would raise `AttributeError` at `ensure_can_authenticate`. -/
def cached_verify_key (cfg : Cfg) (cachePre : String) (hverify : String → String → Bool)
    (repo : Repo) (cache : Cache) (api_key : Option String) (required : List String)
    (nowWall : Int) : Except Err ApiKey × Repo × Cache × List Ev :=
  match api_key with
  | none => (.error .keyNotProvided, repo, cache, [])
  | some s =>
    if isBlank s then (.error .keyNotProvided, repo, cache, [])
    else
      match _get_parts cfg.sep s with
      | .error err => (.error err, repo, cache, [])
      | .ok (gp, kid, sec) =>
        if gp ≠ cfg.globalPre then (.error .invalidKey, repo, cache, [])
        else
          let ck := _compute_cache_key s
          match cacheGetFn cache ck with
          | some (.ent ce) =>
            match ensure_can_authenticate ce nowWall with
            | .error err => (.error err, repo, cache, [.cacheGet ck])
            | .ok _ =>
              if required ≠ [] ∧ missingScopes ce.scopes required ≠ [] then
                (.error .invalidScopes, repo, cache, [.cacheGet ck])
              else
                let ce' := touch ce nowWall
                match repoUpdate repo ce' with
                | (none, r') =>
                  (.error .keyNotFound, r', cache, [.cacheGet ck, .repoUpdate ce'.id_])
                | (some upd, r') =>
                  (.ok upd, r', cache, [.cacheGet ck, .repoUpdate ce'.id_])
          | some (.strv sv) =>
            if sv = "" then
              cached_verify_miss cachePre hverify repo cache ck kid sec required nowWall
            else (.error .attrError, repo, cache, [.cacheGet ck])
          | none =>
            cached_verify_miss cachePre hverify repo cache ck kid sec required nowWall

/-! ### Bcrypt hasher (`hasher/bcrypt.py`) -/

/-- A stored bcrypt hash, abstracting the modular-crypt string: the salt
(recoverable from the stored string) and the derived digest.  The bcrypt
KDF itself is the external parameter `f`. -/
structure BcHash where
  salt : List Nat
  digest : List Nat
deriving DecidableEq

/-- `bcrypt.hashpw`: raises `ValueError` on a password longer than 72
bytes, otherwise derives the digest from salt and password. -/
def bcrypt_hashpw (f : List Nat → List Nat → List Nat) (pw salt : List Nat) :
    Except Unit BcHash :=
  if 72 < pw.length then .error () else .ok ⟨salt, f salt pw⟩

/-- `bcrypt.checkpw`: recompute with the stored salt and compare. -/
def bcrypt_checkpw (f : List Nat → List Nat → List Nat) (pw : List Nat) (hsh : BcHash) :
    Except Unit Bool :=
  match bcrypt_hashpw f pw hsh.salt with
  | .error _ => .error ()
  | .ok h2 => .ok (decide (h2.digest = hsh.digest))

/-- Embeds `BcryptApiKeyHasher.hash` (hasher/bcrypt.py): pepper is appended
(`f"{api_key}{pepper}"`), the UTF-8 bytes are truncated to 72 before
`hashpw`; `salt` stands for `bcrypt.gensalt(rounds)`. -/
def bcrypt_hash (f : List Nat → List Nat → List Nat) (pepper : String)
    (salt : List Nat) (api_key : String) : Except Unit BcHash :=
  let salted := utf8Bytes (api_key ++ pepper)
  bcrypt_hashpw f (salted.take 72) salt

/-- Embeds `BcryptApiKeyHasher.verify` (hasher/bcrypt.py): the supplied key
is peppered and truncated to 72 bytes exactly like `hash`, then checked. -/
def bcrypt_verify (f : List Nat → List Nat → List Nat) (pepper : String)
    (stored : BcHash) (supplied : String) : Except Unit Bool :=
  let salted := (utf8Bytes (supplied ++ pepper)).take 72
  bcrypt_checkpw f salted stored

/-! ### Concrete sample values (used by witnesses) -/

/-- A stored, active, non-expiring entity. -/
def sampleKey : ApiKey :=
  { id_ := "id1", created_at := ⟨0, true⟩, key_id := "k1",
    key_hash := some "h1", scopes := [] }

/-- An inactive entity that is also past its expiry. -/
def sampleInactive : ApiKey :=
  { id_ := "id2", created_at := ⟨0, true⟩, key_id := "k2",
    key_hash := some "h2", is_active := false, expires_at := some ⟨-5, true⟩ }

/-- A hasher stub accepting exactly the pair `("h1", "s1")`. -/
def sampleHasher : String → String → Bool :=
  fun kh sec => kh = "h1" && sec = "s1"

/-- An 80-character secret (whose UTF-8 encoding exceeds 72 bytes). -/
def longSecret : String :=
  "aaaaaaaaaaaaaaaaaaaaaaaaaaaaaaaaaaaaaaaaaaaaaaaaaaaaaaaaaaaaaaaaaaaaaaaaaaaaaaaa"

/-- A stand-in bcrypt KDF for witnesses. -/
def sampleKdf : List Nat → List Nat → List Nat := fun _ pw => pw

/-- A cache holding a primary entry and the index entry that points to it. -/
def sampleCache : Cache :=
  [("ck1", .ent sampleKey), ("api_key:idx:k1", .strv "ck1")]

/-- A cache holding `sampleKey` under the real cache key of the credential
`"ak-k1-s1"`, as left behind by a successful cached verification. -/
def sampleHitCache : Cache :=
  [(_compute_cache_key "ak-k1-s1", CVal.ent sampleKey)]

/-- Primary cache entry plus secondary index, exactly as a successful
cached verification of `"ak-k1-s1"` leaves them. -/
def forgedCache : Cache :=
  [(_compute_cache_key "ak-k1-s1", CVal.ent sampleKey),
   (_get_index_key "api_key" "k1", CVal.strv (_compute_cache_key "ak-k1-s1"))]

/-! ### Theorems -/

set_option maxRecDepth 8000

/-- C2: on any exception from the inner pipeline, the public `verify_key`
sleeps `uniform(rrd, 2*rrd)` — a duration inside the closed interval
`[rrd, 2*rrd]` for any draw `r ∈ [0,1]` of `random()` — and re-raises the
same exception unchanged; on success it returns the entity with zero added
delay. -/
theorem c2_error_jitter_success_no_delay (inner : Except Err ApiKey) (rrd r : ℚ)
    (hrrd : 0 ≤ rrd) (hr0 : 0 ≤ r) (hr1 : r ≤ 1) :
    (∀ err, inner = .error err →
      verify_key_jitter inner rrd r = (.error err, pyUniform rrd (rrd * 2) r) ∧
      rrd ≤ pyUniform rrd (rrd * 2) r ∧ pyUniform rrd (rrd * 2) r ≤ 2 * rrd) ∧
    (∀ e, inner = .ok e → verify_key_jitter inner rrd r = (.ok e, 0)) := by
  constructor
  · intro err h
    subst h
    refine ⟨rfl, ?_, ?_⟩
    · have : 0 ≤ rrd * r := mul_nonneg hrrd hr0
      simp only [pyUniform]
      nlinarith
    · simp only [pyUniform]
      nlinarith [mul_nonneg hrrd hr0]
  · intro e h
    subst h
    rfl

/-- Witness for C2 at a concrete error, a concrete success and
`rrd = 1/3`, `r = 1/2`. -/
theorem c2_error_jitter_success_no_delay_witness :
    (verify_key_jitter (.error .invalidKey) (1/3 : ℚ) (1/2) =
       (.error .invalidKey, pyUniform (1/3) ((1/3) * 2) (1/2)) ∧
     (1/3 : ℚ) ≤ pyUniform (1/3) ((1/3) * 2) (1/2) ∧
     pyUniform (1/3 : ℚ) ((1/3) * 2) (1/2) ≤ 2 * (1/3)) ∧
    verify_key_jitter (.ok sampleKey) (1/3 : ℚ) (1/2) = (.ok sampleKey, 0) := by
  have h1 := c2_error_jitter_success_no_delay (.error .invalidKey) (1/3) (1/2)
    (by norm_num) (by norm_num) (by norm_num)
  have h2 := c2_error_jitter_success_no_delay (.ok sampleKey) (1/3) (1/2)
    (by norm_num) (by norm_num) (by norm_num)
  exact ⟨h1.1 .invalidKey rfl, h2.2 sampleKey rfl⟩

/-- C9: entity construction always yields a timezone-aware `created_at`;
a naive `created_at`, `expires_at` or `last_used_at` (including the
default factory value for `created_at`) is normalized to the aware (UTC)
value with the same wall clock, and aware inputs are kept. -/
theorem c9_construction_normalizes_datetimes (nowWall : Int) (i : String)
    (nm ds : Option String) (act : Bool) (exp : Option PyDT) (cr : PyDT)
    (lu : Option PyDT) (kid : String) (kh : Option String) (sc : List String) :
    (mkApiKey nowWall i nm ds act exp cr lu kid kh sc).created_at = ⟨cr.wall, true⟩ ∧
    (mkApiKey nowWall i nm ds act exp cr lu kid kh sc).expires_at =
      exp.map (fun d => ⟨d.wall, true⟩) ∧
    (mkApiKey nowWall i nm ds act exp cr lu kid kh sc).last_used_at =
      lu.map (fun d => ⟨d.wall, true⟩) := by
  refine ⟨?_, ?_, ?_⟩
  · obtain ⟨w, a⟩ := cr
    cases a <;> simp [mkApiKey, normalize_datetime]
  · cases exp with
    | none => rfl
    | some d =>
      obtain ⟨w, a⟩ := d
      cases a <;> simp [mkApiKey, normalize_datetime]
  · cases lu with
    | none => rfl
    | some d =>
      obtain ⟨w, a⟩ := d
      cases a <;> simp [mkApiKey, normalize_datetime]

/-- C8: for the bcrypt hasher, when the peppered encoding of a secret
exceeds 72 bytes both `hash` and `verify` truncate it to the same 72-byte
prefix, so `verify(hash(s), s)` succeeds with `true` (for any bcrypt KDF
`f`, pepper and salt). -/
theorem c8_bcrypt_truncation_roundtrip (f : List Nat → List Nat → List Nat)
    (pepper : String) (salt : List Nat) (s : String)
    (hlong : 72 < (utf8Bytes (s ++ pepper)).length) :
    bcrypt_hash f pepper salt s =
      .ok ⟨salt, f salt ((utf8Bytes (s ++ pepper)).take 72)⟩ ∧
    bcrypt_verify f pepper ⟨salt, f salt ((utf8Bytes (s ++ pepper)).take 72)⟩ s =
      .ok true := by
  have hlen : ¬ 72 < ((utf8Bytes (s ++ pepper)).take 72).length := by
    simp [List.length_take]
  constructor
  · simp [bcrypt_hash, bcrypt_hashpw, hlen]
  · simp [bcrypt_verify, bcrypt_checkpw, bcrypt_hashpw, hlen]

/-- Witness for C8 at an 80-byte secret, empty pepper and a stand-in KDF. -/
theorem c8_bcrypt_truncation_roundtrip_witness :
    72 < (utf8Bytes (longSecret ++ "")).length ∧
    bcrypt_hash sampleKdf "" [1, 2] longSecret =
      .ok ⟨[1, 2], sampleKdf [1, 2] ((utf8Bytes (longSecret ++ "")).take 72)⟩ ∧
    bcrypt_verify sampleKdf ""
      ⟨[1, 2], sampleKdf [1, 2] ((utf8Bytes (longSecret ++ "")).take 72)⟩ longSecret =
      .ok true := by
  have h := c8_bcrypt_truncation_roundtrip sampleKdf "" [1, 2] longSecret (by decide)
  exact ⟨by decide, h.1, h.2⟩

/-- C3: refuted as stated — the default separator `'-'` is itself a
letter of the `token_urlsafe` alphabet (contradicting the comment on
`DEFAULT_SEPARATOR`), so the encode/decode round trip fails for any
generated secret containing `'-'`.  At the uuid-hex key_id below and the
possible `token_urlsafe(32)` output `"A-AAA…A"` (43 characters, last
character value divisible by 4), decoding the encoded credential yields
`InvalidKey` (four segments) instead of recovering the triple. -/
theorem c3_roundtrip_fails_default_separator :
    _get_parts '-'
      (full_key_secret "ak" '-' "0123456789abcdef0123456789abcdef"
        "A-AAAAAAAAAAAAAAAAAAAAAAAAAAAAAAAAAAAAAAAAA") = .error .invalidKey := rfl

/-- Splitting into other than three segments makes `_get_parts` fail. -/
theorem get_parts_len_ne_three (sep : Char) (s : String)
    (h : (pySplitS sep s).length ≠ 3) : _get_parts sep s = .error .invalidKey := by
  unfold _get_parts
  rcases hl : pySplitS sep s with _ | ⟨a, _ | ⟨b, _ | ⟨c, _ | ⟨d, t⟩⟩⟩⟩ <;> simp_all

/-- Splitting into exactly three segments makes `_get_parts` succeed. -/
theorem get_parts_of_split (sep : Char) (s : String) (a b c : String)
    (h : pySplitS sep s = [a, b, c]) : _get_parts sep s = .ok (a, b, c) := by
  unfold _get_parts
  rw [h]

/-- C4 (amended): a blank credential raises `KeyNotProvided`, and a
credential that does not split into exactly three segments, or whose first
segment is not the configured global prefix, raises `InvalidKey`; in all
three cases the repository is never touched (empty event trace) and the
store is unchanged.  (The non-emptiness of the three segments is *not*
checked structurally — see the counterexample.) -/
theorem c4_structural_errors_before_repo (cfg : Cfg) (hverify : String → String → Bool)
    (repo : Repo) (req : List String) (nowWall : Int) (s : String) :
    (isBlank s = true →
      _verify_key_svc cfg hverify repo (some s) req nowWall =
        (.error .keyNotProvided, repo, [])) ∧
    ((pySplitS cfg.sep s).length ≠ 3 → isBlank s = false →
      _verify_key_svc cfg hverify repo (some s) req nowWall =
        (.error .invalidKey, repo, [])) ∧
    (∀ a b c, pySplitS cfg.sep s = [a, b, c] → a ≠ cfg.globalPre → isBlank s = false →
      _verify_key_svc cfg hverify repo (some s) req nowWall =
        (.error .invalidKey, repo, [])) := by
  refine ⟨?_, ?_, ?_⟩
  · intro h
    simp [_verify_key_svc, _parse_and_validate_key, h]
  · intro h hb
    simp [_verify_key_svc, _parse_and_validate_key, hb,
      get_parts_len_ne_three cfg.sep s h]
  · intro a b c hsplit hne hb
    simp [_verify_key_svc, _parse_and_validate_key, hb,
      get_parts_of_split cfg.sep s a b c hsplit, hne]

/-- Witness for C4 (amended) at a blank input, a two-segment input and a
wrong-prefix input. -/
theorem c4_structural_errors_before_repo_witness :
    _verify_key_svc ⟨'-', "ak"⟩ sampleHasher [] (some " ") [] 0 =
      (.error .keyNotProvided, [], []) ∧
    _verify_key_svc ⟨'-', "ak"⟩ sampleHasher [] (some "ak-x") [] 0 =
      (.error .invalidKey, [], []) ∧
    _verify_key_svc ⟨'-', "ak"⟩ sampleHasher [] (some "zz-kid-sec") [] 0 =
      (.error .invalidKey, [], []) := by
  refine ⟨(c4_structural_errors_before_repo ⟨'-', "ak"⟩ sampleHasher [] [] 0 " ").1 rfl,
    (c4_structural_errors_before_repo ⟨'-', "ak"⟩ sampleHasher [] [] 0 "ak-x").2.1
      (by decide) rfl,
    (c4_structural_errors_before_repo ⟨'-', "ak"⟩ sampleHasher [] [] 0 "zz-kid-sec").2.2
      "zz" "kid" "sec" (by decide) (by decide) rfl⟩

/-- C4 counterexample: the credential `"ak-kid-"` splits into three
segments with an *empty* third segment, yet it is not rejected
structurally — the repository IS queried (event `repoGetByKeyId "kid"`)
and the resulting error is the lookup error `KeyNotFound`, not a
structural error. -/
theorem c4_counterexample_empty_segment :
    _verify_key_svc ⟨'-', "ak"⟩ (fun _ _ => false) [] (some "ak-kid-") [] 0 =
      (.error .keyNotFound, [], [.repoGetByKeyId "kid"]) := rfl

/-- C5: an entity with a set `key_hash` that is inactive — even one that
is simultaneously past its expiry — fails verification with `KeyInactive`
(the inactivity check precedes the expiry check), and for any entity that
is inactive or expired the hasher's verify is never invoked (no
`hasherVerify` event). -/
theorem c5_inactive_precedes_expiry_no_hash (hverify : String → String → Bool)
    (repo : Repo) (e : ApiKey) (sec : String) (req : List String) (nowWall : Int) :
    (∀ kh d, e.key_hash = some kh → e.is_active = false → e.expires_at = some d →
      d.wall < nowWall →
      _verify_entity hverify repo e sec req nowWall = (.error .keyInactive, repo, [])) ∧
    ((e.is_active = false ∨ ∃ d, e.expires_at = some d ∧ d.wall < nowWall) →
      (∃ err, (_verify_entity hverify repo e sec req nowWall).1 = .error err) ∧
      ∀ kh s', Ev.hasherVerify kh s' ∉ (_verify_entity hverify repo e sec req nowWall).2.2) := by
  constructor
  · intro kh d hkh hact _hexp _hlt
    simp [_verify_entity, hkh, ensure_can_authenticate, hact]
  · intro h
    cases hkh : e.key_hash with
    | none =>
      refine ⟨⟨.assertionFailed, ?_⟩, ?_⟩ <;> simp [_verify_entity, hkh]
    | some kh =>
      have hca : ∃ err, ensure_can_authenticate e nowWall = .error err := by
        cases hact : e.is_active with
        | false => exact ⟨.keyInactive, by simp [ensure_can_authenticate, hact]⟩
        | true =>
          rcases h with hact' | ⟨d, hexp, hlt⟩
          · exact absurd hact' (by simp [hact])
          · cases hd : d.aware with
            | false =>
              exact ⟨.keyExpired,
                by simp [ensure_can_authenticate, hact, hexp, pyLtDT, datetime_factory, hd, hlt]⟩
            | true =>
              exact ⟨.typeError,
                by simp [ensure_can_authenticate, hact, hexp, pyLtDT, datetime_factory, hd]⟩
      obtain ⟨err, herr⟩ := hca
      refine ⟨⟨err, ?_⟩, ?_⟩ <;> simp [_verify_entity, hkh, herr]

/-- Witness for C5 at an inactive, expired sample entity. -/
theorem c5_inactive_precedes_expiry_no_hash_witness :
    _verify_entity sampleHasher [sampleInactive] sampleInactive "s" [] 0 =
      (.error .keyInactive, [sampleInactive], []) ∧
    (∃ err, (_verify_entity sampleHasher [sampleInactive] sampleInactive "s" [] 0).1 =
      .error err) ∧
    ∀ kh s', Ev.hasherVerify kh s' ∉
      (_verify_entity sampleHasher [sampleInactive] sampleInactive "s" [] 0).2.2 := by
  have h := c5_inactive_precedes_expiry_no_hash sampleHasher [sampleInactive]
    sampleInactive "s" [] 0
  have h2 := h.2 (Or.inl rfl)
  exact ⟨h.1 "h2" ⟨-5, true⟩ rfl rfl rfl (by norm_num), h2.1, h2.2⟩

/-- `get_by_key_id` never emits a repository-update event. -/
theorem get_by_key_id_no_update (repo : Repo) (kid : String) :
    ∀ i, Ev.repoUpdate i ∉ (get_by_key_id repo kid).2 := by
  intro i
  unfold get_by_key_id
  cases hb : isBlank kid
  · cases hf : repoGetByKeyId repo kid <;> simp [hb, hf]
  · simp [hb]

/-- `_verify_entity` frame conditions: every error outcome leaves the
repository unchanged and emits no update event; the success outcome
returns the touched entity, with the store updated accordingly and an
update event emitted. -/
theorem verify_entity_frame (hverify : String → String → Bool) (repo : Repo)
    (e : ApiKey) (sec : String) (req : List String) (nw : Int) :
    (∀ err, (_verify_entity hverify repo e sec req nw).1 = .error err →
      (_verify_entity hverify repo e sec req nw).2.1 = repo ∧
      ∀ i, Ev.repoUpdate i ∉ (_verify_entity hverify repo e sec req nw).2.2) ∧
    (∀ e', (_verify_entity hverify repo e sec req nw).1 = .ok e' →
      e' = touch e nw ∧
      (_verify_entity hverify repo e sec req nw).2.1 = (repoUpdate repo e').2 ∧
      Ev.repoUpdate e'.id_ ∈ (_verify_entity hverify repo e sec req nw).2.2) := by
  cases hkh : e.key_hash with
  | none =>
    constructor
    · intro err _
      simp [_verify_entity, hkh]
    · intro e' h
      simp [_verify_entity, hkh] at h
  | some kh =>
    cases hca : ensure_can_authenticate e nw with
    | error err2 =>
      constructor
      · intro err _
        simp [_verify_entity, hkh, hca]
      · intro e' h
        simp [_verify_entity, hkh, hca] at h
    | ok u =>
      by_cases hsec : sec = ""
      · constructor
        · intro err _
          simp [_verify_entity, hkh, hca, hsec]
        · intro e' h
          simp [_verify_entity, hkh, hca, hsec] at h
      · cases hv : hverify kh sec with
        | false =>
          constructor
          · intro err _
            simp [_verify_entity, hkh, hca, hsec, hv]
          · intro e' h
            simp [_verify_entity, hkh, hca, hsec, hv] at h
        | true =>
          cases hs : ensure_valid_scopes e req with
          | error err2 =>
            constructor
            · intro err _
              simp [_verify_entity, hkh, hca, hsec, hv, hs]
            · intro e' h
              simp [_verify_entity, hkh, hca, hsec, hv, hs] at h
          | ok u2 =>
            constructor
            · intro err h
              simp [_verify_entity, hkh, hca, hsec, hv, hs] at h
            · intro e' h
              simp [_verify_entity, hkh, hca, hsec, hv, hs] at h
              subst h
              exact ⟨rfl, by simp [_verify_entity, hkh, hca, hsec, hv, hs],
                by simp [_verify_entity, hkh, hca, hsec, hv, hs]⟩

/-- C7: every erroring `verify_key` run leaves the repository unchanged
and performs no repository update (so `last_used_at` of the stored entity
is untouched); every successful run returns an entity whose
`last_used_at` is the current time, having written it through the
repository (update event emitted, store updated) before returning. -/
theorem c7_error_frame_success_touch (cfg : Cfg) (hverify : String → String → Bool)
    (repo : Repo) (s : Option String) (req : List String) (nowWall : Int) :
    (∀ err, (_verify_key_svc cfg hverify repo s req nowWall).1 = .error err →
      (_verify_key_svc cfg hverify repo s req nowWall).2.1 = repo ∧
      ∀ i, Ev.repoUpdate i ∉ (_verify_key_svc cfg hverify repo s req nowWall).2.2) ∧
    (∀ e', (_verify_key_svc cfg hverify repo s req nowWall).1 = .ok e' →
      e'.last_used_at = some (datetime_factory nowWall) ∧
      Ev.repoUpdate e'.id_ ∈ (_verify_key_svc cfg hverify repo s req nowWall).2.2 ∧
      (_verify_key_svc cfg hverify repo s req nowWall).2.1 = (repoUpdate repo e').2) := by
  cases hp : _parse_and_validate_key cfg s with
  | error err0 =>
    constructor
    · intro err h
      simp [_verify_key_svc, hp]
    · intro e' h
      simp [_verify_key_svc, hp] at h
  | ok tri =>
    obtain ⟨gp, kid, sec⟩ := tri
    rcases hg : get_by_key_id repo kid with ⟨ge, evs1⟩
    have hnoupd : ∀ i, Ev.repoUpdate i ∉ evs1 := by
      have h0 := get_by_key_id_no_update repo kid
      rw [hg] at h0
      exact h0
    cases ge with
    | error err0 =>
      constructor
      · intro err h
        refine ⟨by simp [_verify_key_svc, hp, hg], ?_⟩
        intro i
        simp [_verify_key_svc, hp, hg]
        exact hnoupd i
      · intro e' h
        simp [_verify_key_svc, hp, hg] at h
    | ok e =>
      rcases hv : _verify_entity hverify repo e sec req nowWall with ⟨res2, r2, evs2⟩
      have hframe := verify_entity_frame hverify repo e sec req nowWall
      rw [hv] at hframe
      constructor
      · intro err h
        simp [_verify_key_svc, hp, hg, hv] at h
        have hfr := hframe.1 err (by simp [h])
        simp only [Prod.fst, Prod.snd] at hfr
        obtain ⟨hr, hn⟩ := hfr
        constructor
        · simp [_verify_key_svc, hp, hg, hv, hr]
        · intro i
          simp [_verify_key_svc, hp, hg, hv, List.mem_append]
          exact ⟨hnoupd i, hn i⟩
      · intro e' h
        simp [_verify_key_svc, hp, hg, hv] at h
        have hfr := hframe.2 e' (by simp [h])
        simp only [Prod.fst, Prod.snd] at hfr
        obtain ⟨he', hr, hm⟩ := hfr
        subst he'
        refine ⟨rfl, ?_, by simp [_verify_key_svc, hp, hg, hv, hr]⟩
        simp [_verify_key_svc, hp, hg, hv, List.mem_append]
        exact Or.inr hm

/-- Witness for C7 at a concrete successful run (valid credential) and a
concrete erroring run (wrong secret). -/
theorem c7_error_frame_success_touch_witness :
    ((touch sampleKey 7).last_used_at = some (datetime_factory 7) ∧
     Ev.repoUpdate (touch sampleKey 7).id_ ∈
       (_verify_key_svc ⟨'-', "ak"⟩ sampleHasher [sampleKey] (some "ak-k1-s1") [] 7).2.2 ∧
     (_verify_key_svc ⟨'-', "ak"⟩ sampleHasher [sampleKey] (some "ak-k1-s1") [] 7).2.1 =
       (repoUpdate [sampleKey] (touch sampleKey 7)).2) ∧
    ((_verify_key_svc ⟨'-', "ak"⟩ sampleHasher [sampleKey] (some "ak-k1-zz") [] 7).2.1 =
       [sampleKey] ∧
     ∀ i, Ev.repoUpdate i ∉
       (_verify_key_svc ⟨'-', "ak"⟩ sampleHasher [sampleKey] (some "ak-k1-zz") [] 7).2.2) := by
  refine ⟨(c7_error_frame_success_touch ⟨'-', "ak"⟩ sampleHasher [sampleKey]
      (some "ak-k1-s1") [] 7).2 (touch sampleKey 7) rfl,
    (c7_error_frame_success_touch ⟨'-', "ak"⟩ sampleHasher [sampleKey]
      (some "ak-k1-zz") [] 7).1 .invalidKey rfl⟩

/-- C6: a cached-service `update` or `delete_by_id` that succeeds at the
repository afterwards runs `_invalidate_cache` on the entity's `key_id`;
`_invalidate_cache` is a no-op (no deletion, no error) when the secondary
index holds no entry, and deletes both the pointed-to primary entry and
the index entry when it does. -/
theorem c6_invalidation_on_update_delete (cachePre : String) (repo : Repo)
    (cache : Cache) (e : ApiKey) (i : String) :
    (repo.any (fun x => x.id_ = e.id_) = true →
      cachedUpdate cachePre repo cache e =
        (.ok e, (repoUpdate repo e).2, (_invalidate_cache cachePre cache e.key_id).1,
         Ev.repoUpdate e.id_ :: (_invalidate_cache cachePre cache e.key_id).2)) ∧
    (∀ ent, repoGetById repo i = some ent →
      cachedDeleteById cachePre repo cache i =
        (.ok true, (repoDeleteById repo i).2,
         (_invalidate_cache cachePre cache ent.key_id).1,
         [Ev.repoGetById i, Ev.repoDeleteById i] ++
           (_invalidate_cache cachePre cache ent.key_id).2)) ∧
    (∀ kid, cacheGetFn cache (_get_index_key cachePre kid) = none →
      (_invalidate_cache cachePre cache kid).1 = cache) ∧
    (∀ kid ck, cacheGetFn cache (_get_index_key cachePre kid) = some (.strv ck) →
      ck ≠ "" →
      (_invalidate_cache cachePre cache kid).1 =
        cacheDelFn (cacheDelFn cache ck) (_get_index_key cachePre kid)) := by
  refine ⟨?_, ?_, ?_, ?_⟩
  · intro h
    rcases hi : _invalidate_cache cachePre cache e.key_id with ⟨c', evs2⟩
    simp [cachedUpdate, service_update, repoUpdate, h, hi]
  · intro ent hent
    rcases hi : _invalidate_cache cachePre cache ent.key_id with ⟨c', evs2⟩
    simp [cachedDeleteById, hent, hi]
  · intro kid h
    simp [_invalidate_cache, h]
  · intro kid ck h hck
    simp [_invalidate_cache, h, hck]

/-- Witness for C6 on a concrete two-entry cache: update and delete both
invalidate; a never-cached key_id is a no-op; the present index entry
causes the double deletion. -/
theorem c6_invalidation_on_update_delete_witness :
    cachedUpdate "api_key" [sampleKey] sampleCache sampleKey =
      (.ok sampleKey, (repoUpdate [sampleKey] sampleKey).2,
       (_invalidate_cache "api_key" sampleCache "k1").1,
       Ev.repoUpdate "id1" :: (_invalidate_cache "api_key" sampleCache "k1").2) ∧
    cachedDeleteById "api_key" [sampleKey] sampleCache "id1" =
      (.ok true, (repoDeleteById [sampleKey] "id1").2,
       (_invalidate_cache "api_key" sampleCache "k1").1,
       [Ev.repoGetById "id1", Ev.repoDeleteById "id1"] ++
         (_invalidate_cache "api_key" sampleCache "k1").2) ∧
    (_invalidate_cache "api_key" sampleCache "zz").1 = sampleCache ∧
    (_invalidate_cache "api_key" sampleCache "k1").1 =
      cacheDelFn (cacheDelFn sampleCache "ck1") (_get_index_key "api_key" "k1") := by
  have h := c6_invalidation_on_update_delete "api_key" [sampleKey] sampleCache
    sampleKey "id1"
  exact ⟨h.1 (by decide), h.2.1 sampleKey rfl, h.2.2.1 "zz" rfl,
    h.2.2.2 "k1" "ck1" rfl (by decide)⟩

/-- C10: a cache hit never authenticates an entity that is gone from the
repository: when the credential's cache entry is present (and the entity
passes the liveness and scope re-checks) but the repository update during
touch reports the entity absent, the cached `_verify_key` raises
`KeyNotFound` instead of returning the cached entity. -/
theorem c10_cache_hit_stale_raises_not_found (cfg : Cfg) (cachePre : String)
    (hverify : String → String → Bool) (repo : Repo) (cache : Cache)
    (s kid sec : String) (e : ApiKey) (req : List String) (nw : Int)
    (hblank : isBlank s = false)
    (hsplit : pySplitS cfg.sep s = [cfg.globalPre, kid, sec])
    (hhit : cacheGetFn cache (_compute_cache_key s) = some (.ent e))
    (hact : e.is_active = true)
    (hexp : e.expires_at = none)
    (hscopes : req = [] ∨ missingScopes e.scopes req = [])
    (habsent : repo.any (fun x => x.id_ = e.id_) = false) :
    cached_verify_key cfg cachePre hverify repo cache (some s) req nw =
      (.error .keyNotFound, repo, cache,
       [.cacheGet (_compute_cache_key s), .repoUpdate e.id_]) := by
  have hca : ensure_can_authenticate e nw = .ok () := by
    simp [ensure_can_authenticate, hact, hexp]
  have hsc : ¬(req ≠ [] ∧ missingScopes e.scopes req ≠ []) := by
    rcases hscopes with h | h <;> simp [h]
  have hid : (touch e nw).id_ = e.id_ := rfl
  have hupd : repoUpdate repo (touch e nw) = (none, repo) := by
    simp [repoUpdate, touch, habsent]
  simp [cached_verify_key, hblank, get_parts_of_split cfg.sep s _ _ _ hsplit,
    hhit, hca, hsc, hupd, hid]

/-- Witness for C10: `sampleKey` is cached for `"ak-k1-s1"` but the
repository is empty, so the cached verification fails with `KeyNotFound`. -/
theorem c10_cache_hit_stale_raises_not_found_witness :
    cached_verify_key ⟨'-', "ak"⟩ "api_key" sampleHasher [] sampleHitCache
      (some "ak-k1-s1") [] 5 =
      (.error .keyNotFound, [], sampleHitCache,
       [.cacheGet (_compute_cache_key "ak-k1-s1"), .repoUpdate "id1"]) :=
  c10_cache_hit_stale_raises_not_found ⟨'-', "ak"⟩ "api_key" sampleHasher []
    sampleHitCache "ak-k1-s1" "k1" "s1" sampleKey [] 5 rfl rfl rfl rfl rfl
    (Or.inl rfl) rfl

/-- Hex digits are never a colon. -/
theorem hexChar_ne_colon : ∀ n < 16, hexChar n ≠ ':' := by decide

/-- Every byte of a SHA-256 digest is below 256. -/
theorem sha256Bytes_lt_256 (msg : List Nat) : ∀ b ∈ sha256Bytes msg, b < 256 := by
  intro b hb
  unfold sha256Bytes at hb
  simp [List.mem_flatten, List.mem_map] at hb
  obtain ⟨w, _, hb⟩ := hb
  rcases hb with h | h | h | h <;> subst h <;> exact Nat.mod_lt _ (by norm_num)

/-- The hex digest used as a cache key contains no colon. -/
theorem colon_not_mem_cache_key (s : String) : ':' ∉ (_compute_cache_key s).data := by
  intro hmem
  unfold _compute_cache_key bytesToHex at hmem
  simp [List.mem_flatten, List.mem_map] at hmem
  obtain ⟨b, hb, hc⟩ := hmem
  have hlt := sha256Bytes_lt_256 (utf8Bytes s) b hb
  rcases hc with hc | hc
  · exact hexChar_ne_colon (b / 16) ((Nat.div_lt_iff_lt_mul (by norm_num)).2 hlt) hc.symm
  · exact hexChar_ne_colon (b % 16) (Nat.mod_lt _ (by norm_num)) hc.symm

/-- Every secondary-index key contains a colon. -/
theorem colon_mem_index_key (cp kid : String) : ':' ∈ (_get_index_key cp kid).data := by
  unfold _get_index_key
  refine List.mem_append.2 (Or.inl (List.mem_append.2 (Or.inr ?_)))
  decide

/-- A primary cache key (hex digest) is never a secondary-index key. -/
theorem cache_key_ne_index_key (s cp kid : String) :
    _compute_cache_key s ≠ _get_index_key cp kid := by
  intro h
  have hm := colon_mem_index_key cp kid
  rw [← h] at hm
  exact colon_not_mem_cache_key s hm

/-- C1: with the cache populated by a successful verification of a
credential (primary entry under the SHA-256 of the whole raw credential,
index entry under the `key_id`), a forged credential carrying the correct
`key_id` but a wrong secret never hits the cache — its cache key is a
different digest, and no cache key ever collides with an index key — and
instead runs the full pipeline, reaching the hasher's verify and failing
with `InvalidKey`. -/
theorem c1_forged_credential_misses_cache (cfg : Cfg) (cachePre : String)
    (hverify : String → String → Bool) (repo : Repo)
    (cred forged kid sec' : String) (e stored : ApiKey) (nw : Int) (kh : String)
    (cache : Cache)
    (hcache : cache = [(_compute_cache_key cred, .ent e),
                       (_get_index_key cachePre kid, .strv (_compute_cache_key cred))])
    (hblank : isBlank forged = false)
    (hsplit : pySplitS cfg.sep forged = [cfg.globalPre, kid, sec'])
    (hkidb : isBlank kid = false)
    (hdiff : _compute_cache_key forged ≠ _compute_cache_key cred)
    (hfind : repoGetByKeyId repo kid = some stored)
    (hact : stored.is_active = true) (hexp : stored.expires_at = none)
    (hkh : stored.key_hash = some kh)
    (hsec : sec' ≠ "")
    (hwrong : hverify kh sec' = false) :
    cacheGetFn cache (_compute_cache_key forged) = none ∧
    cached_verify_key cfg cachePre hverify repo cache (some forged) [] nw =
      (.error .invalidKey, repo, cache,
       [.cacheGet (_compute_cache_key forged), .repoGetByKeyId kid,
        .hasherVerify kh sec']) := by
  have hmiss : cacheGetFn cache (_compute_cache_key forged) = none := by
    subst hcache
    simp [cacheGetFn, List.find?, Ne.symm hdiff,
      Ne.symm (cache_key_ne_index_key forged cachePre kid)]
  refine ⟨hmiss, ?_⟩
  have hca : ensure_can_authenticate stored nw = .ok () := by
    simp [ensure_can_authenticate, hact, hexp]
  simp [cached_verify_key, hblank, get_parts_of_split cfg.sep forged _ _ _ hsplit,
    hmiss, cached_verify_miss, get_by_key_id, hkidb, hfind, hca, hkh, hsec, hwrong]

/-- Witness for C1: cache populated for `"ak-k1-s1"`, forged credential
`"ak-k1-s2"`; the forged key misses the cache and fails `InvalidKey` after
the hasher ran. -/
theorem c1_forged_credential_misses_cache_witness :
    cacheGetFn forgedCache (_compute_cache_key "ak-k1-s2") = none ∧
    cached_verify_key ⟨'-', "ak"⟩ "api_key" sampleHasher [sampleKey] forgedCache
      (some "ak-k1-s2") [] 3 =
      (.error .invalidKey, [sampleKey], forgedCache,
       [.cacheGet (_compute_cache_key "ak-k1-s2"), .repoGetByKeyId "k1",
        .hasherVerify "h1" "s2"]) :=
  c1_forged_credential_misses_cache ⟨'-', "ak"⟩ "api_key" sampleHasher [sampleKey]
    "ak-k1-s1" "ak-k1-s2" "k1" "s2" sampleKey sampleKey 3 "h1" forgedCache rfl rfl
    rfl rfl (by decide) rfl rfl rfl rfl (by decide) rfl

end ApiKeySpec
